import Mathlib

/-!
Verification of the pinch-to-zoom gesture/transform/backdrop core
(`src/touch-handler.js`, `src/zoom-controller.js`, `src/overlay-manager.js`,
`src/utils.js`, and the orchestrator in the bundled `index.js`).

Modelling conventions:
* Finite JavaScript numbers are modelled as rationals (`ℚ`); where a claim
  exercises `Infinity` / `-Infinity` the type `JSNum` adds the two infinite
  values.  `NaN` is outside the model.
* Touch-point geometry (`Math.hypot`) is modelled over the reals (`ℝ`).
* DOM style mutation is modelled as explicit state records; `setTimeout`
  callbacks are modelled by recording the value each callback captured and
  by a separate "fire" transition applied with that captured value.
* `errorHandler.safeExecute(fn, …)` merely wraps `fn` in try/catch; the
  modelled code paths are total, so it is the identity here.
-/

namespace PinchZoomSpec

/-- JavaScript numbers as exercised by the claims: finite values as
rationals plus `Infinity` and `-Infinity` (`NaN` is outside the model). -/
inductive JSNum where
  | negInf : JSNum
  | posInf : JSNum
  | fin (q : ℚ) : JSNum
deriving DecidableEq

/-- `Math.max` on non-`NaN` JavaScript numbers. -/
def jsMax : JSNum → JSNum → JSNum
  | JSNum.posInf, _ => JSNum.posInf
  | _, JSNum.posInf => JSNum.posInf
  | JSNum.negInf, b => b
  | a, JSNum.negInf => a
  | JSNum.fin a, JSNum.fin b => JSNum.fin (max a b)

/-- `Math.min` on non-`NaN` JavaScript numbers. -/
def jsMin : JSNum → JSNum → JSNum
  | JSNum.negInf, _ => JSNum.negInf
  | _, JSNum.negInf => JSNum.negInf
  | JSNum.posInf, b => b
  | a, JSNum.posInf => a
  | JSNum.fin a, JSNum.fin b => JSNum.fin (min a b)

/-- `clamp(value, min, max)` from `src/utils.js`:
`Math.min(Math.max(value, min), max)`. -/
def jsClamp (value lo hi : JSNum) : JSNum := jsMin (jsMax value lo) hi

/-- The strict `<` comparison on non-`NaN` JavaScript numbers
(used for `clampedScale > 1` / `currentScale > 1`). -/
def jsLt : JSNum → JSNum → Bool
  | JSNum.negInf, JSNum.negInf => false
  | JSNum.negInf, _ => true
  | _, JSNum.negInf => false
  | JSNum.posInf, _ => false
  | _, JSNum.posInf => true
  | JSNum.fin a, JSNum.fin b => decide (a < b)

/-! ## ZoomController (`src/zoom-controller.js`) -/

/-- The options a `ZoomController` reads: `maxScale`, `minScale` and the
`zIndex` used for the stacking promotion (`transitionDuration` only feeds
constant style strings and is not read by any settled claim). -/
structure ZCOptions where
  maxScale : ℚ
  minScale : ℚ
  zIndex : ℕ
deriving DecidableEq

/-- The element's `transform` style: either never written or the
`scale(…) translate(…px, …px)` value written by `applyTransform`. -/
inductive TransformVal where
  | unset : TransformVal
  | scaleTranslate (scale tx ty : JSNum) : TransformVal
deriving DecidableEq

/-- The element's `width`/`height` style in fallback (no-transform) mode:
cleared (`""` or never written) or `"${original * scale}px"`, with the
product kept symbolic because no settled claim reads it. -/
inductive SizeStyle where
  | unsetSize : SizeStyle
  | pxOf (original : ℚ) (scale : JSNum) : SizeStyle
deriving DecidableEq

/-- The style properties of the bound element that `ZoomController`
mutates. -/
structure ElStyle where
  transform : TransformVal
  transition : String
  zIndexStyle : String
  positionStyle : String
  width : SizeStyle
  height : SizeStyle
deriving DecidableEq

/-- State of one `ZoomController`: its option snapshot, the capability
flag read at construction, the element's natural size, the three
`current*` fields, and the element's style. -/
structure ZCState where
  options : ZCOptions
  transformSupported : Bool
  naturalWidth : ℚ
  naturalHeight : ℚ
  currentScale : JSNum
  currentTranslateX : JSNum
  currentTranslateY : JSNum
  style : ElStyle
deriving DecidableEq

/-- `applyFallbackTransform(scale, …)`: resizes the element's box when the
natural size is truthy (nonzero). -/
def applyFallbackTransform (clamped : JSNum) (st : ZCState) : ZCState :=
  if st.naturalWidth ≠ 0 ∧ st.naturalHeight ≠ 0 then
    { st with style := { st.style with
        width := SizeStyle.pxOf st.naturalWidth clamped,
        height := SizeStyle.pxOf st.naturalHeight clamped } }
  else st

/-- `ZoomController.applyTransform(scale, translateX, translateY)`:
clamps the scale into `[minScale, maxScale]`, stores the three fields,
writes the transform (or the fallback size), and promotes stacking when
`clampedScale > 1` (`this.options.zIndex || "1000"`). -/
def zcApplyTransform (s tx ty : JSNum) (st : ZCState) : ZCState :=
  let clamped := jsClamp s (JSNum.fin st.options.minScale) (JSNum.fin st.options.maxScale)
  let st1 := { st with currentScale := clamped, currentTranslateX := tx,
                       currentTranslateY := ty }
  let st2 :=
    if st1.transformSupported then
      { st1 with style := { st1.style with
          transform := TransformVal.scaleTranslate clamped tx ty } }
    else applyFallbackTransform clamped st1
  if jsLt (JSNum.fin 1) clamped then
    { st2 with style := { st2.style with
        zIndexStyle := if st2.options.zIndex = 0 then "1000" else toString st2.options.zIndex,
        positionStyle := "relative" } }
  else st2

/-- `ZoomController.resetTransform()`. -/
def zcResetTransform (st : ZCState) : ZCState :=
  let st1 := { st with currentScale := JSNum.fin 1, currentTranslateX := JSNum.fin 0,
                       currentTranslateY := JSNum.fin 0 }
  if st1.transformSupported then
    { st1 with style := { st1.style with
        transform := TransformVal.scaleTranslate (JSNum.fin 1) (JSNum.fin 0) (JSNum.fin 0) } }
  else
    { st1 with style := { st1.style with
        width := SizeStyle.unsetSize, height := SizeStyle.unsetSize } }

/-- `ZoomController.destroy()`: reset, clear the transition, clear the
stacking promotion. -/
def zcDestroy (st : ZCState) : ZCState :=
  let st1 := zcResetTransform st
  { st1 with style := { st1.style with
      transition := "", zIndexStyle := "", positionStyle := "" } }

/-- The snapshot returned by `getTransformState()`. -/
structure TransformState where
  scale : JSNum
  translateX : JSNum
  translateY : JSNum
  isZoomed : Bool
deriving DecidableEq

/-- `ZoomController.getTransformState()`. -/
def zcGetTransformState (st : ZCState) : TransformState :=
  ⟨st.currentScale, st.currentTranslateX, st.currentTranslateY,
   jsLt (JSNum.fin 1) st.currentScale⟩

/-- `applyTransform` stores exactly the clamped scale. -/
lemma zcApplyTransform_currentScale (s tx ty : JSNum) (st : ZCState) :
    (zcApplyTransform s tx ty st).currentScale
      = jsClamp s (JSNum.fin st.options.minScale) (JSNum.fin st.options.maxScale) := by
  simp only [zcApplyTransform, applyFallbackTransform]
  split_ifs <;> rfl

/-- Clamping any `JSNum` (finite or infinite) into a finite interval with
`lo ≤ hi` lands on a finite value inside the interval. -/
lemma jsClamp_mem (s : JSNum) (lo hi : ℚ) (h : lo ≤ hi) :
    ∃ q : ℚ, jsClamp s (JSNum.fin lo) (JSNum.fin hi) = JSNum.fin q ∧ lo ≤ q ∧ q ≤ hi := by
  cases s with
  | negInf => exact ⟨lo, by simp [jsClamp, jsMax, jsMin, min_eq_left h], le_refl lo, h⟩
  | posInf => exact ⟨hi, by simp [jsClamp, jsMax, jsMin], h, le_refl hi⟩
  | fin a =>
    refine ⟨min (max a lo) hi, by simp [jsClamp, jsMax, jsMin], ?_, min_le_right _ _⟩
    exact le_min (le_trans (le_max_right a lo) (le_refl _)) h

/-! ## OverlayManager (`src/overlay-manager.js`) -/

/-- A rendered `rgba(R, G, B, A)` background-color value.  The three
channels are kept as the strings the source interpolates (captured digit
strings, or the decimal rendering of a parsed hex channel); the alpha is
the rational opacity. -/
structure Rgba where
  r : String
  g : String
  b : String
  a : ℚ
deriving DecidableEq

/-- Value of a hex digit, per `parseInt(…, 16)`; accepts `0-9a-fA-F`
(the hex regex carries the `i` flag). -/
def hexDigit? (c : Char) : Option ℕ :=
  if c.isDigit then some (c.toNat - 48)
  else if 'a' ≤ c ∧ c ≤ 'f' then some (c.toNat - 87)
  else if 'A' ≤ c ∧ c ≤ 'F' then some (c.toNat - 55)
  else none

/-- Whether a character matches the class `[a-f\d]` under the `i` flag. -/
def isHexChar (c : Char) : Bool := (hexDigit? c).isSome

/-- `parseInt` of a two-hex-digit string. -/
def hexVal2 (c1 c2 : Char) : ℕ :=
  16 * (hexDigit? c1).getD 0 + (hexDigit? c2).getD 0

/-- Match of the anchored regex `/^#([a-f\d]{3}|[a-f\d]{6})$/i`:
returns the captured digit group. -/
def hexMatch (s : String) : Option (List Char) :=
  match s.data with
  | '#' :: rest =>
    if rest.all isHexChar ∧ (rest.length = 3 ∨ rest.length = 6) then some rest else none
  | _ => none

/-- One attempt, at a fixed start position, to match
`rgba?\((\d+),\s*(\d+),\s*(\d+)(?:,\s*([\d.]+))?\)`; returns the three
captured digit strings.  The regex is deterministic here because the
greedy pieces (`a?`, `\d+`, the optional alpha group) are each followed by
a character they cannot consume. -/
def rgbaMatchAt (l : List Char) : Option (String × String × String) :=
  match l with
  | 'r' :: 'g' :: 'b' :: rest0 =>
    let afterParen : Option (List Char) :=
      match rest0 with
      | 'a' :: '(' :: r => some r
      | '(' :: r => some r
      | _ => none
    match afterParen with
    | none => none
    | some r1 =>
      let (d1, r2) := r1.span Char.isDigit
      if d1.isEmpty then none else
      match r2 with
      | ',' :: r3 =>
        let r3' := r3.dropWhile Char.isWhitespace
        let (d2, r4) := r3'.span Char.isDigit
        if d2.isEmpty then none else
        match r4 with
        | ',' :: r5 =>
          let r5' := r5.dropWhile Char.isWhitespace
          let (d3, r6) := r5'.span Char.isDigit
          if d3.isEmpty then none else
          match r6 with
          | ')' :: _ => some (String.mk d1, String.mk d2, String.mk d3)
          | ',' :: r7 =>
            let r7' := r7.dropWhile Char.isWhitespace
            let (d4, r8) := r7'.span (fun c => c.isDigit || c = '.')
            if d4.isEmpty then none else
            match r8 with
            | ')' :: _ => some (String.mk d1, String.mk d2, String.mk d3)
            | _ => none
          | _ => none
        | _ => none
      | _ => none
  | _ => none

/-- Leftmost search (JavaScript `String.prototype.match` without `g`). -/
def rgbaFindAux : List Char → Option (String × String × String)
  | [] => none
  | c :: rest =>
    match rgbaMatchAt (c :: rest) with
    | some caps => some caps
    | none => rgbaFindAux rest

/-- Unanchored match of the `rgba?` regex against a whole string. -/
def rgbaFind (s : String) : Option (String × String × String) := rgbaFindAux s.data

/-- `OverlayManager.parseBackgroundColor(backgroundColor, opacity)`:
re-emit an `rgb`/`rgba` literal with the new alpha, convert 3/6-digit hex,
and fall back to the default neutral `rgba(255, 255, 255, opacity)` for
anything else. -/
def parseBackgroundColor (backgroundColor : String) (opacity : ℚ) : Rgba :=
  match rgbaFind backgroundColor with
  | some (r, g, b) => ⟨r, g, b, opacity⟩
  | none =>
    match hexMatch backgroundColor with
    | some [h1, h2, h3] =>
      ⟨toString (hexVal2 h1 h1), toString (hexVal2 h2 h2), toString (hexVal2 h3 h3), opacity⟩
    | some [h1, h2, h3, h4, h5, h6] =>
      ⟨toString (hexVal2 h1 h2), toString (hexVal2 h3 h4), toString (hexVal2 h5 h6), opacity⟩
    | some _ => ⟨"255", "255", "255", opacity⟩  -- unreachable: hexMatch yields length 3 or 6
    | none => ⟨"255", "255", "255", opacity⟩

/-- The overlay element's style fields that `OverlayManager` rewrites
after creation (`display` and `backgroundColor`; the other styles set in
`createOverlay` are constants never touched again). -/
structure OverlayEl where
  display : String
  backgroundColor : Rgba
deriving DecidableEq

/-- State of one `OverlayManager`: the configured `backgroundColor`
option, the lazily created overlay element, the `isVisible` flag, and the
list of captured `clampedOpacity` values of pending `setTimeout` hide
callbacks (each will be fired with exactly the value it captured). -/
structure OMState where
  backgroundColor : String
  overlay : Option OverlayEl
  isVisible : Bool
  hideTimers : List ℚ
deriving DecidableEq

/-- `OverlayManager.createOverlay()`: idempotent lazy creation; the fresh
element starts with `display: "none"` and a fully transparent background. -/
def omCreateOverlay (s : OMState) : OMState :=
  match s.overlay with
  | some _ => s
  | none => { s with overlay := some ⟨"none", ⟨"255", "255", "255", 0⟩⟩ }

/-- `OverlayManager.updateOverlay(opacity)`: clamps the opacity into
`[0,1]`; if positive, shows the overlay with the mapped color; if zero,
makes the background transparent and schedules a hide timer whose
callback captures this call's `clampedOpacity` (a `const` local). -/
def omUpdateOverlay (opacity : ℚ) (s : OMState) : OMState :=
  let s1 := match s.overlay with
    | none => omCreateOverlay s
    | some _ => s
  match s1.overlay with
  | none => s1
  | some ov =>
    let clampedOpacity := max 0 (min 1 opacity)
    if 0 < clampedOpacity then
      { s1 with
        overlay := some ⟨"block", parseBackgroundColor s1.backgroundColor clampedOpacity⟩,
        isVisible := true }
    else
      { s1 with overlay := some ⟨ov.display, ⟨"255", "255", "255", 0⟩⟩,
                hideTimers := s1.hideTimers ++ [clampedOpacity] }

/-- Firing of one scheduled hide callback: `captured` is the
`clampedOpacity` value the closure captured when it was scheduled.  The
guard re-checks `this.overlay && clampedOpacity === 0` — note the second
conjunct tests the captured constant, not current state. -/
def omFireHideTimer (captured : ℚ) (s : OMState) : OMState :=
  if s.overlay.isSome ∧ captured = 0 then
    { s with overlay := s.overlay.map (fun ov => { ov with display := "none" }),
             isVisible := false }
  else s

/-- `OverlayManager.removeOverlay()`: detach and discard the element if
present (created overlays are always attached to `document.body`). -/
def omRemoveOverlay (s : OMState) : OMState :=
  match s.overlay with
  | some _ => { s with overlay := none, isVisible := false }
  | none => s

/-- `OverlayManager.destroy()` is an alias for `removeOverlay()`. -/
def omDestroy (s : OMState) : OMState := omRemoveOverlay s

/-! ## TouchHandler (`src/touch-handler.js`)

Geometry is over the reals; `Math.hypot(a, b)` is `Real.sqrt (a² + b²)`.
In JavaScript `x / 0` is `Infinity` while in Lean it is `0`; the division
appears only in `handleTouchMove`'s `scaleFactor`, which no settled claim
reads after a zero-`initialDistance` start. -/

noncomputable section

/-- One extracted touch point (`clientX`/`clientY`). -/
@[ext]
structure TouchPoint where
  clientX : ℝ
  clientY : ℝ

/-- `getDistance(touch1, touch2)` from `src/utils.js`:
`Math.hypot(t2.clientX - t1.clientX, t2.clientY - t1.clientY)`. -/
def getDistance (t1 t2 : TouchPoint) : ℝ :=
  Real.sqrt ((t2.clientX - t1.clientX) ^ 2 + (t2.clientY - t1.clientY) ^ 2)

/-- `getMidpoint(touch1, touch2)` from `src/utils.js`. -/
def getMidpoint (t1 t2 : TouchPoint) : TouchPoint :=
  ⟨(t1.clientX + t2.clientX) / 2, (t1.clientY + t2.clientY) / 2⟩

/-- The mutable state of one `TouchHandler` (constructor initial values:
`isActive = false`, `initialDistance = 0`, `currentScale = 1`,
`touches = []`). -/
structure THState where
  isActive : Bool
  initialDistance : ℝ
  currentScale : ℝ
  touches : List TouchPoint

/-- The constructor state (the `Idle` state). -/
def initTH : THState := ⟨false, 0, 1, []⟩

/-- The semantic gesture events delivered through the
`onTouchStart` / `onTouchMove` / `onTouchEnd` callbacks. -/
inductive GestureEvent where
  | gestureStart (initialDistance : ℝ) (mid : TouchPoint) (touches : List TouchPoint)
  | gestureMove (scaleFactor currentScale : ℝ) (mid : TouchPoint)
      (touches : List TouchPoint) (initialDistance currentDistance : ℝ)
  | gestureEnd

/-- `TouchHandler.handleTouchStart`: acts only when the extracted point
set has exactly two entries. -/
def handleTouchStart (s : THState) (touches : List TouchPoint) :
    THState × List GestureEvent :=
  match touches with
  | [t1, t2] =>
    let d := getDistance t1 t2
    ({ s with isActive := true, initialDistance := d, touches := [t1, t2] },
     [GestureEvent.gestureStart d (getMidpoint t1 t2) [t1, t2]])
  | _ => (s, [])

/-- `TouchHandler.handleTouchMove`: acts only when the extracted point
set has exactly two entries and the gesture is active. -/
def handleTouchMove (s : THState) (touches : List TouchPoint) :
    THState × List GestureEvent :=
  match touches, s.isActive with
  | [t1, t2], true =>
    let currentDistance := getDistance t1 t2
    let mid := getMidpoint t1 t2
    let scaleFactor := currentDistance / s.initialDistance
    ({ s with currentScale := scaleFactor, touches := [t1, t2] },
     [GestureEvent.gestureMove scaleFactor scaleFactor mid [t1, t2]
        s.initialDistance currentDistance])
  | _, _ => (s, [])

/-- `TouchHandler.handleTouchEnd`: acts only when the extracted point set
is empty and the gesture is active. -/
def handleTouchEnd (s : THState) (touches : List TouchPoint) :
    THState × List GestureEvent :=
  match touches, s.isActive with
  | [], true =>
    ({ s with isActive := false, initialDistance := 0, currentScale := 1, touches := [] },
     [GestureEvent.gestureEnd])
  | _, _ => (s, [])

/-- One raw input event dispatched to a handler, carrying the extracted
point list. -/
inductive TouchEvt where
  | startEvt (touches : List TouchPoint)
  | moveEvt (touches : List TouchPoint)
  | endEvt (touches : List TouchPoint)

/-- State transition of one delivered input event. -/
def thStep (s : THState) (e : TouchEvt) : THState :=
  match e with
  | TouchEvt.startEvt ts => (handleTouchStart s ts).1
  | TouchEvt.moveEvt ts => (handleTouchMove s ts).1
  | TouchEvt.endEvt ts => (handleTouchEnd s ts).1

/-- Delivering a sequence of input events. -/
def thRun (s : THState) (evs : List TouchEvt) : THState := evs.foldl thStep s

/-- A start event is nondegenerate when its two extracted points (if it
has exactly two) are distinct. -/
def startsNondegenerate (e : TouchEvt) : Prop :=
  ∀ t1 t2 : TouchPoint, e = TouchEvt.startEvt [t1, t2] → t1 ≠ t2

end

/-! ## Session Orchestrator move handler (bundled `index.js`,
`initializeElement`'s `onTouchMove` callback) -/

/-- `clampedScale = Math.min(Math.max(scaleFactor, minScale), maxScale)`. -/
def clampedScaleJS (minScale maxScale scaleFactor : ℚ) : ℚ :=
  min (max scaleFactor minScale) maxScale

/-- `opacity = Math.min(0.8 * (clampedScale - 1) / (maxScale - 1), 0.8)`. -/
def opacityOfClamped (maxScale clampedScale : ℚ) : ℚ :=
  min (0.8 * (clampedScale - 1) / (maxScale - 1)) 0.8

/-- The opacity the move handler passes to `updateOverlay`, as a function
of the raw `scaleFactor` from the gesture payload. -/
def moveOpacity (minScale maxScale scaleFactor : ℚ) : ℚ :=
  opacityOfClamped maxScale (clampedScaleJS minScale maxScale scaleFactor)

/-! ## Option validation (`validateAndSanitizeOptions` in `src/utils.js`,
`DEFAULT_OPTIONS` in the bundled `index.js`) -/

/-- Result of JavaScript `Number(v)` on a provided option value: `NaN` or
a (finite) numeric value.  String-to-number parsing is abstracted to its
result, which covers every rational outcome. -/
inductive JNum where
  | nanJ : JNum
  | numJ (q : ℚ) : JNum
deriving DecidableEq

/-- A provided option value as seen by a `typeof v === "string"` check. -/
inductive JStrOr where
  | strJ (s : String) : JStrOr
  | nonStrJ : JStrOr
deriving DecidableEq

/-- The raw options object: each field is either absent (`undefined`) or
carries the projection of its value that the corresponding check reads. -/
structure RawOptions where
  backgroundColor : Option JStrOr
  maxScale : Option JNum
  minScale : Option JNum
  transitionDuration : Option JStrOr
  zIndex : Option JNum

/-- A validated configuration record (the shape of `DEFAULT_OPTIONS` and
of the `sanitized` result). -/
structure PZOptions where
  backgroundColor : String
  maxScale : ℚ
  minScale : ℚ
  transitionDuration : String
  zIndex : ℚ
deriving DecidableEq

/-- `DEFAULT_OPTIONS` from the bundled `index.js`. -/
def DEFAULT_OPTIONS : PZOptions :=
  ⟨"rgba(255, 255, 255, 0.8)", 5, 1, "0.3s", 1000⟩

/-- Tags for the error strings `validateAndSanitizeOptions` pushes (the
message text is abstracted to which check failed). -/
inductive OptionErr where
  | notAnObject
  | badBackgroundColor
  | badMaxScale
  | badMinScale
  | badTransitionDuration
  | badZIndex
  | minNotBelowMax
deriving DecidableEq

/-- Anchored match of `/^\d+(\.\d+)?(s|ms)$/` (deterministic: each greedy
piece is followed by a character it cannot consume). -/
def durationFormatOk (l : List Char) : Bool :=
  let (d1, r1) := l.span Char.isDigit
  if d1.isEmpty then false else
  let r2 : Option (List Char) :=
    match r1 with
    | '.' :: rest =>
      let (d2, r3) := rest.span Char.isDigit
      if d2.isEmpty then none else some r3
    | _ => some r1
  match r2 with
  | none => false
  | some r => r == ['s'] || r == ['m', 's']

/-- The `transitionDuration` validity test:
`typeof v === "string" && /^\d+(\.\d+)?(s|ms)$/.test(v.trim())`. -/
def durationOk (s : String) : Bool := durationFormatOk s.trim.data

/-- The `backgroundColor` field block. -/
def sanitizeBackgroundColor (v : Option JStrOr) (d : String) : String × List OptionErr :=
  match v with
  | none => (d, [])
  | some (JStrOr.strJ s) =>
    if s.trim ≠ "" then (s, []) else (d, [OptionErr.badBackgroundColor])
  | some JStrOr.nonStrJ => (d, [OptionErr.badBackgroundColor])

/-- The `maxScale` field block: accepted iff `!isNaN && > 1 && <= 10`. -/
def sanitizeMaxScale (v : Option JNum) (d : ℚ) : ℚ × List OptionErr :=
  match v with
  | none => (d, [])
  | some JNum.nanJ => (d, [OptionErr.badMaxScale])
  | some (JNum.numJ q) =>
    if 1 < q ∧ q ≤ 10 then (q, []) else (d, [OptionErr.badMaxScale])

/-- The `minScale` field block: accepted iff `!isNaN && >= 0.1 && <= 1`. -/
def sanitizeMinScale (v : Option JNum) (d : ℚ) : ℚ × List OptionErr :=
  match v with
  | none => (d, [])
  | some JNum.nanJ => (d, [OptionErr.badMinScale])
  | some (JNum.numJ q) =>
    if 0.1 ≤ q ∧ q ≤ 1 then (q, []) else (d, [OptionErr.badMinScale])

/-- The `transitionDuration` field block. -/
def sanitizeTransitionDuration (v : Option JStrOr) (d : String) : String × List OptionErr :=
  match v with
  | none => (d, [])
  | some (JStrOr.strJ s) =>
    if durationOk s then (s, []) else (d, [OptionErr.badTransitionDuration])
  | some JStrOr.nonStrJ => (d, [OptionErr.badTransitionDuration])

/-- The `zIndex` field block: accepted iff
`!isNaN && Number.isInteger && >= 0` (`Number.isInteger q` is `q.den = 1`). -/
def sanitizeZIndex (v : Option JNum) (d : ℚ) : ℚ × List OptionErr :=
  match v with
  | none => (d, [])
  | some JNum.nanJ => (d, [OptionErr.badZIndex])
  | some (JNum.numJ q) =>
    if q.den = 1 ∧ 0 ≤ q then (q, []) else (d, [OptionErr.badZIndex])

/-- `validateAndSanitizeOptions(options, defaults)`: per-field validation
against `defaults`, then the final `minScale >= maxScale` adjustment
(`minScale = Math.min(minScale, maxScale - 0.1)`).  A `none` argument is
the `!options || typeof options !== "object"` early return. -/
def validateAndSanitizeOptions (options : Option RawOptions) (defaults : PZOptions) :
    PZOptions × List OptionErr :=
  match options with
  | none => (defaults, [OptionErr.notAnObject])
  | some o =>
    let bgR := sanitizeBackgroundColor o.backgroundColor defaults.backgroundColor
    let maxR := sanitizeMaxScale o.maxScale defaults.maxScale
    let minR := sanitizeMinScale o.minScale defaults.minScale
    let tdR := sanitizeTransitionDuration o.transitionDuration defaults.transitionDuration
    let ziR := sanitizeZIndex o.zIndex defaults.zIndex
    let errs := bgR.2 ++ maxR.2 ++ minR.2 ++ tdR.2 ++ ziR.2
    if minR.1 ≥ maxR.1 then
      (⟨bgR.1, maxR.1, min minR.1 (maxR.1 - 0.1), tdR.1, ziR.1⟩,
       errs ++ [OptionErr.minNotBelowMax])
    else
      (⟨bgR.1, maxR.1, minR.1, tdR.1, ziR.1⟩, errs)

/-! ## Claim theorems -/

/-- C4 (scale clamp postcondition): for every input scale `s` — including
`Infinity`, `-Infinity` and `0` — and every `translateX`/`translateY`,
after `applyTransform(s, translateX, translateY)` the `scale` reported by
`getTransformState()` lies within `[minScale, maxScale]` inclusive. -/
theorem applyTransform_scale_clamped (st : ZCState)
    (h : st.options.minScale ≤ st.options.maxScale) (s tx ty : JSNum) :
    ∃ q : ℚ, (zcGetTransformState (zcApplyTransform s tx ty st)).scale = JSNum.fin q ∧
      st.options.minScale ≤ q ∧ q ≤ st.options.maxScale := by
  obtain ⟨q, hq, h1, h2⟩ := jsClamp_mem s st.options.minScale st.options.maxScale h
  exact ⟨q, by simp [zcGetTransformState, zcApplyTransform_currentScale, hq], h1, h2⟩

/-- A concrete `ZoomController` state: validated default options
(`minScale 1`, `maxScale 5`, `zIndex 1000`), transform capability present,
a 100×100 element, at the identity transform. -/
def zcExample : ZCState :=
  ⟨⟨5, 1, 1000⟩, true, 100, 100, JSNum.fin 1, JSNum.fin 0, JSNum.fin 0,
   ⟨TransformVal.unset, "transform 0.3s ease-out", "", "", SizeStyle.unsetSize,
    SizeStyle.unsetSize⟩⟩

/-- Witness for C4 at `s = Infinity` on `zcExample` (whose bounds satisfy
`minScale = 1 ≤ 5 = maxScale`). -/
theorem applyTransform_scale_clamped_witness :
    ∃ q : ℚ,
      (zcGetTransformState
        (zcApplyTransform JSNum.posInf (JSNum.fin 0) (JSNum.fin 0) zcExample)).scale
        = JSNum.fin q ∧ (1 : ℚ) ≤ q ∧ q ≤ 5 :=
  applyTransform_scale_clamped zcExample (by norm_num [zcExample]) JSNum.posInf
    (JSNum.fin 0) (JSNum.fin 0)

/-- C9 (idempotent destroy): for the Backdrop Driver (`OverlayManager`)
and the Transform Driver (`ZoomController`), calling `destroy()` twice in
a row leaves exactly the state of calling it once (and, the functions
being total, never throws). -/
theorem destroy_idempotent :
    (∀ s : OMState, omDestroy (omDestroy s) = omDestroy s) ∧
    (∀ st : ZCState, zcDestroy (zcDestroy st) = zcDestroy st) := by
  constructor
  · intro s
    obtain ⟨bg, ov, vis, timers⟩ := s
    cases ov <;> rfl
  · intro st
    obtain ⟨opts, sup, nw, nh, cs, tx, ty, sty⟩ := st
    cases sup <;> rfl

/-- C2, counterexample: with `minScale = maxScale = 2`, the move handler's
opacity at raw scale factor `1/2 ≤ 1` is not `0` (it is `0.8`, because the
clamp first raises the scale to `2`). -/
theorem degenerate_bounds_opacity_ne_zero : moveOpacity 2 2 (1 / 2) ≠ 0 := by
  norm_num [moveOpacity, opacityOfClamped, clampedScaleJS]

/-- C2, amended: with `minScale = maxScale = 2`, the move handler yields
opacity `0.8` — a finite value, never `NaN` or `Infinity`, since
`maxScale - 1 = 1` — for every raw scale factor, including factors `≤ 1`
(the clamp raises every raw factor to `2` before the opacity formula). -/
theorem degenerate_bounds_opacity (s : ℚ) : moveOpacity 2 2 s = 0.8 := by
  have h1 : clampedScaleJS 2 2 s = 2 := by
    unfold clampedScaleJS
    simp [min_eq_right (le_max_right s 2)]
  unfold moveOpacity opacityOfClamped
  rw [h1]
  norm_num

/-- C5 (opacity mapping and monotonicity): with `minScale = 1` and
`maxScale = 5`, the orchestrator's opacity formula yields `0` at
`clampedScale = 1`, `0.8` at `clampedScale = 5`, is monotonically
non-decreasing on `[1, 5]`, and never exceeds `0.8`. -/
theorem opacity_mapping_monotone (c1 c2 : ℚ) (_h1 : 1 ≤ c1) (h12 : c1 ≤ c2)
    (_h25 : c2 ≤ 5) :
    opacityOfClamped 5 1 = 0 ∧ opacityOfClamped 5 5 = 0.8 ∧
    opacityOfClamped 5 c1 ≤ opacityOfClamped 5 c2 ∧ opacityOfClamped 5 c2 ≤ 0.8 := by
  refine ⟨?_, ?_, ?_, min_le_right _ _⟩
  · unfold opacityOfClamped
    norm_num
  · unfold opacityOfClamped
    norm_num
  · unfold opacityOfClamped
    apply min_le_min _ le_rfl
    rw [div_le_div_iff₀ (by norm_num) (by norm_num)]
    nlinarith

/-- Witness for C5 at `c1 = 2`, `c2 = 3`. -/
theorem opacity_mapping_monotone_witness :
    opacityOfClamped 5 1 = 0 ∧ opacityOfClamped 5 5 = 0.8 ∧
    opacityOfClamped 5 2 ≤ opacityOfClamped 5 3 ∧ opacityOfClamped 5 3 ≤ 0.8 :=
  opacity_mapping_monotone 2 3 (by norm_num) (by norm_num) (by norm_num)

/-- C1 (fade-out race), evaluated at the claim's scenario: starting from a
fresh driver with the default `backgroundColor`, call `updateOverlay(0)`
(which schedules a hide timer capturing `clampedOpacity = 0`), then
`updateOverlay(0.4)`, then let the original timer fire.  The backdrop is
hidden — `display: "none"`, `isVisible = false` — even though its
background color still carries alpha `0.4`, because the timer's guard
re-checks the captured `const clampedOpacity` (always `0` in that closure)
instead of current opacity, so the "implicit cancellation" the claim
describes never happens. -/
theorem fade_out_race_hides_overlay :
    (omUpdateOverlay (2 / 5) (omUpdateOverlay 0
        ⟨"rgba(255, 255, 255, 0.8)", none, false, []⟩)).isVisible = true ∧
    (omUpdateOverlay (2 / 5) (omUpdateOverlay 0
        ⟨"rgba(255, 255, 255, 0.8)", none, false, []⟩)).overlay
      = some ⟨"block", ⟨"255", "255", "255", 2 / 5⟩⟩ ∧
    (omUpdateOverlay 0 ⟨"rgba(255, 255, 255, 0.8)", none, false, []⟩).hideTimers
      = [0] ∧
    (omFireHideTimer 0 (omUpdateOverlay (2 / 5) (omUpdateOverlay 0
        ⟨"rgba(255, 255, 255, 0.8)", none, false, []⟩))).isVisible = false ∧
    (omFireHideTimer 0 (omUpdateOverlay (2 / 5) (omUpdateOverlay 0
        ⟨"rgba(255, 255, 255, 0.8)", none, false, []⟩))).overlay
      = some ⟨"none", ⟨"255", "255", "255", 2 / 5⟩⟩ := by
  have hparse : ∀ q : ℚ, parseBackgroundColor "rgba(255, 255, 255, 0.8)" q
      = ⟨"255", "255", "255", q⟩ := fun _ => rfl
  have hcl0 : max 0 (min 1 (0 : ℚ)) = 0 := by norm_num [min_def, max_def]
  have hcl4 : max 0 (min 1 (2 / 5 : ℚ)) = 2 / 5 := by norm_num [min_def, max_def]
  have hpos : (0 : ℚ) < 2 / 5 := by norm_num
  have hstep1 : omUpdateOverlay 0 ⟨"rgba(255, 255, 255, 0.8)", none, false, []⟩
      = ⟨"rgba(255, 255, 255, 0.8)",
         some ⟨"none", ⟨"255", "255", "255", 0⟩⟩, false, [0]⟩ := by
    simp [omUpdateOverlay, omCreateOverlay, hcl0]
  have hstep2 : omUpdateOverlay (2 / 5)
      (⟨"rgba(255, 255, 255, 0.8)",
        some ⟨"none", ⟨"255", "255", "255", 0⟩⟩, false, [0]⟩ : OMState)
      = ⟨"rgba(255, 255, 255, 0.8)",
         some ⟨"block", ⟨"255", "255", "255", 2 / 5⟩⟩, true, [0]⟩ := by
    simp [omUpdateOverlay, hcl4, hpos, hparse]
  have hstep3 : omFireHideTimer 0
      (⟨"rgba(255, 255, 255, 0.8)",
        some ⟨"block", ⟨"255", "255", "255", 2 / 5⟩⟩, true, [0]⟩ : OMState)
      = ⟨"rgba(255, 255, 255, 0.8)",
         some ⟨"none", ⟨"255", "255", "255", 2 / 5⟩⟩, false, [0]⟩ := by
    simp [omFireHideTimer]
  rw [hstep1, hstep2, hstep3]
  exact ⟨rfl, rfl, rfl, rfl, rfl⟩

/-- C6 (color-spec fidelity): the Backdrop Driver's color mapping turns
`"#ff0000"` at opacity `0.5` into `rgba(255, 0, 0, 0.5)`, and turns any
literal matching neither the `rgb`/`rgba` regex nor the 3/6-digit hex
regex into the built-in default `rgba(255, 255, 255, ·)` at the requested
alpha — totally, never an error. -/
theorem color_spec_fidelity (s : String) (a : ℚ)
    (h1 : rgbaFind s = none) (h2 : hexMatch s = none) :
    parseBackgroundColor "#ff0000" (1 / 2) = ⟨"255", "0", "0", 1 / 2⟩ ∧
    parseBackgroundColor s a = ⟨"255", "255", "255", a⟩ := by
  constructor
  · rfl
  · unfold parseBackgroundColor
    rw [h1, h2]

/-- Witness for C6 at the claim's literal `"papayawhip"` (which matches
neither regex) at alpha `0.5`. -/
theorem color_spec_fidelity_witness :
    parseBackgroundColor "#ff0000" (1 / 2) = ⟨"255", "0", "0", 1 / 2⟩ ∧
    parseBackgroundColor "papayawhip" (1 / 2) = ⟨"255", "255", "255", 1 / 2⟩ :=
  color_spec_fidelity "papayawhip" (1 / 2) rfl rfl

/-- C7 (gesture arity filter): delivering an extracted point set of length
1, of length greater than 2, or of length 0 while not active, to any of
the start/move/end handlers, emits no event and leaves the interpreter
state (active, initialDistance, currentScale, points) unchanged. -/
theorem gesture_arity_filter (s : THState) (ps : List TouchPoint)
    (h : ps.length = 1 ∨ 2 < ps.length ∨ (ps.length = 0 ∧ s.isActive = false)) :
    handleTouchStart s ps = (s, []) ∧ handleTouchMove s ps = (s, []) ∧
    handleTouchEnd s ps = (s, []) := by
  obtain ⟨act, idist, cscale, tchs⟩ := s
  cases ps with
  | nil =>
    have hact : act = false := by
      rcases h with h | h | h
      · simp at h
      · simp at h
      · exact h.2
    subst hact
    exact ⟨rfl, rfl, rfl⟩
  | cons p1 rest =>
    cases rest with
    | nil => exact ⟨rfl, rfl, rfl⟩
    | cons p2 rest2 =>
      cases rest2 with
      | nil =>
        exfalso
        rcases h with h | h | h <;> simp at h
      | cons p3 rest3 => exact ⟨rfl, rfl, rfl⟩

/-- Witness for C7: a 1-point set delivered to all three handlers of an
Idle interpreter. -/
theorem gesture_arity_filter_witness :
    handleTouchStart initTH [⟨1, 2⟩] = (initTH, []) ∧
    handleTouchMove initTH [⟨1, 2⟩] = (initTH, []) ∧
    handleTouchEnd initTH [⟨1, 2⟩] = (initTH, []) :=
  gesture_arity_filter initTH [⟨1, 2⟩] (Or.inl rfl)

/-- Number of `GestureEnd` events in an emission trace. -/
def countGestureEnds (l : List GestureEvent) : ℕ :=
  (l.filter fun e =>
    match e with
    | GestureEvent.gestureEnd => true
    | _ => false).length

/-- C8 (start/end symmetry): from Idle, a qualifying two-point start
event followed immediately by a 0-point end event (no intervening moves)
emits exactly one `GestureEnd` — the end call emits precisely
`[gestureEnd]` and the pair emits no other `GestureEnd` — and leaves the
interpreter with `active = false`, `initialDistance = 0`,
`currentScale = 1` and an empty points list (the constructor state). -/
theorem start_end_symmetry (t1 t2 : TouchPoint) :
    (handleTouchEnd (handleTouchStart initTH [t1, t2]).1 []).1 = initTH ∧
    (handleTouchEnd (handleTouchStart initTH [t1, t2]).1 []).2
      = [GestureEvent.gestureEnd] ∧
    countGestureEnds ((handleTouchStart initTH [t1, t2]).2 ++
      (handleTouchEnd (handleTouchStart initTH [t1, t2]).1 []).2) = 1 :=
  ⟨rfl, rfl, rfl⟩

/-- C3, counterexample: a qualifying two-point start whose two extracted
points are identical leaves the interpreter active with
`initialDistance = 0`, violating `active ⇒ initialDistance > 0`. -/
theorem active_with_zero_initialDistance :
    (thRun initTH [TouchEvt.startEvt [⟨5, 5⟩, ⟨5, 5⟩]]).isActive = true ∧
    ¬ (0 < (thRun initTH [TouchEvt.startEvt [⟨5, 5⟩, ⟨5, 5⟩]]).initialDistance) := by
  refine ⟨rfl, ?_⟩
  have hd : (thRun initTH [TouchEvt.startEvt [⟨5, 5⟩, ⟨5, 5⟩]]).initialDistance
      = Real.sqrt (((5 : ℝ) - 5) ^ 2 + ((5 : ℝ) - 5) ^ 2) := rfl
  rw [hd]
  norm_num

/-- Two distinct touch points are at strictly positive distance. -/
lemma getDistance_pos (t1 t2 : TouchPoint) (h : t1 ≠ t2) :
    0 < getDistance t1 t2 := by
  apply Real.sqrt_pos.mpr
  have hne : t2.clientX - t1.clientX ≠ 0 ∨ t2.clientY - t1.clientY ≠ 0 := by
    by_contra hc
    push_neg at hc
    obtain ⟨hx, hy⟩ := hc
    apply h
    ext
    · linarith [sub_eq_zero.mp hx]
    · linarith [sub_eq_zero.mp hy]
  rcases hne with hx | hy
  · nlinarith [pow_two_pos_of_ne_zero hx, sq_nonneg (t2.clientY - t1.clientY)]
  · nlinarith [pow_two_pos_of_ne_zero hy, sq_nonneg (t2.clientX - t1.clientX)]

/-- One delivered event preserves `active ⇒ initialDistance > 0` as long
as any two-point start it performs has distinct points. -/
lemma thStep_preserves_pos (s : THState) (e : TouchEvt)
    (hnd : startsNondegenerate e)
    (hs : s.isActive = true → 0 < s.initialDistance) :
    (thStep s e).isActive = true → 0 < (thStep s e).initialDistance := by
  obtain ⟨act, idist, cscale, tchs⟩ := s
  cases e with
  | startEvt ts =>
    match ts with
    | [] => exact hs
    | [t1] => exact hs
    | [t1, t2] => exact fun _ => getDistance_pos t1 t2 (hnd t1 t2 rfl)
    | t1 :: t2 :: t3 :: rest => exact hs
  | moveEvt ts =>
    cases act with
    | false =>
      match ts with
      | [] => exact hs
      | [t1] => exact hs
      | [t1, t2] => exact hs
      | t1 :: t2 :: t3 :: rest => exact hs
    | true =>
      match ts with
      | [] => exact hs
      | [t1] => exact hs
      | [t1, t2] => exact hs
      | t1 :: t2 :: t3 :: rest => exact hs
  | endEvt ts =>
    cases act with
    | false =>
      match ts with
      | [] => exact hs
      | t1 :: rest => exact hs
    | true =>
      match ts with
      | [] => exact fun hq => Bool.noConfusion hq
      | t1 :: rest => exact hs

/-- Delivering any event sequence preserves the strict invariant when all
its two-point starts are nondegenerate. -/
lemma thRun_preserves_pos (evs : List TouchEvt) :
    ∀ s : THState, (∀ e ∈ evs, startsNondegenerate e) →
      (s.isActive = true → 0 < s.initialDistance) →
      ((thRun s evs).isActive = true → 0 < (thRun s evs).initialDistance) := by
  induction evs with
  | nil => exact fun s _ hs => hs
  | cons e rest ih =>
    intro s hnd hs
    exact ih (thStep s e) (fun e' he' => hnd e' (List.mem_cons_of_mem _ he'))
      (thStep_preserves_pos s e (hnd e (List.mem_cons_self e rest)) hs)

/-- C3, amended: for every sequence of input events delivered to one
interpreter from the Idle state, whenever `isActive` is true,
`initialDistance` is strictly positive — provided every qualifying
two-point start in the sequence had two distinct extracted points.  (The
unamended claim also asserted this for an identical-point start, where
the interpreter in fact activates with `initialDistance = 0`.) -/
theorem active_initialDistance_invariant (evs : List TouchEvt)
    (hnd : ∀ e ∈ evs, startsNondegenerate e)
    (hact : (thRun initTH evs).isActive = true) :
    0 < (thRun initTH evs).initialDistance :=
  thRun_preserves_pos evs initTH hnd (fun hq => Bool.noConfusion hq) hact

/-- Witness for C3's amended invariant: a single nondegenerate two-point
start at `(0,0)` and `(100,0)`. -/
theorem active_initialDistance_invariant_witness :
    0 < (thRun initTH [TouchEvt.startEvt [⟨0, 0⟩, ⟨100, 0⟩]]).initialDistance := by
  apply active_initialDistance_invariant
  · intro e he t1 t2 heq
    have he' : e = TouchEvt.startEvt [⟨0, 0⟩, ⟨100, 0⟩] := by simpa using he
    subst he'
    injection heq with hlist
    injection hlist with h1 hrest
    injection hrest with h2 hnil
    subst h1
    subst h2
    intro hc
    have := congrArg TouchPoint.clientX hc
    norm_num at this
  · rfl

/-- Whatever value (or `NaN`, or nothing) is supplied for `maxScale`, the
sanitized `maxScale` against the default `5` lies in `(1, 10]`. -/
lemma sanitizeMaxScale_bounds (v : Option JNum) :
    1 < (sanitizeMaxScale v (5 : ℚ)).1 ∧ (sanitizeMaxScale v (5 : ℚ)).1 ≤ 10 := by
  match v with
  | none => norm_num [sanitizeMaxScale]
  | some JNum.nanJ => norm_num [sanitizeMaxScale]
  | some (JNum.numJ q) =>
    simp only [sanitizeMaxScale]
    split_ifs with h
    · exact ⟨h.1, h.2⟩
    · norm_num

/-- Whatever value is supplied for `minScale`, the sanitized `minScale`
against the default `1` lies in `[0.1, 1]`. -/
lemma sanitizeMinScale_bounds (v : Option JNum) :
    1 / 10 ≤ (sanitizeMinScale v (1 : ℚ)).1 ∧ (sanitizeMinScale v (1 : ℚ)).1 ≤ 1 := by
  match v with
  | none => norm_num [sanitizeMinScale]
  | some JNum.nanJ => norm_num [sanitizeMinScale]
  | some (JNum.numJ q) =>
    simp only [sanitizeMinScale]
    split_ifs with h
    · exact ⟨by linarith [h.1], h.2⟩
    · norm_num

/-- C10 (implicit configuration invariant): for every options object —
absent, non-object, or any combination of provided field values —
`validateAndSanitizeOptions` with the library defaults returns a record
with `0.1 ≤ minScale ≤ 1` and `1 < maxScale ≤ 10`, hence
`minScale < maxScale`; in particular `maxScale = 1` is impossible, so the
orchestrator's division by `maxScale - 1` is never a division by zero for
a constructed `PinchZoom` instance. -/
theorem options_invariant (o : Option RawOptions) :
    1 / 10 ≤ ((validateAndSanitizeOptions o DEFAULT_OPTIONS).1).minScale ∧
    ((validateAndSanitizeOptions o DEFAULT_OPTIONS).1).minScale ≤ 1 ∧
    1 < ((validateAndSanitizeOptions o DEFAULT_OPTIONS).1).maxScale ∧
    ((validateAndSanitizeOptions o DEFAULT_OPTIONS).1).maxScale ≤ 10 ∧
    ((validateAndSanitizeOptions o DEFAULT_OPTIONS).1).minScale <
      ((validateAndSanitizeOptions o DEFAULT_OPTIONS).1).maxScale ∧
    ((validateAndSanitizeOptions o DEFAULT_OPTIONS).1).maxScale - 1 ≠ 0 := by
  match o with
  | none =>
    refine ⟨?_, ?_, ?_, ?_, ?_, ?_⟩ <;>
      norm_num [validateAndSanitizeOptions, DEFAULT_OPTIONS]
  | some ro =>
    obtain ⟨hmax1, hmax10⟩ := sanitizeMaxScale_bounds ro.maxScale
    obtain ⟨hmin01, hmin1⟩ := sanitizeMinScale_bounds ro.minScale
    have hlt : (sanitizeMinScale ro.minScale (1 : ℚ)).1
        < (sanitizeMaxScale ro.maxScale (5 : ℚ)).1 := lt_of_le_of_lt hmin1 hmax1
    have hcond : ¬ ((sanitizeMinScale ro.minScale (1 : ℚ)).1
        ≥ (sanitizeMaxScale ro.maxScale (5 : ℚ)).1) := not_le.mpr hlt
    have hres : (validateAndSanitizeOptions (some ro) DEFAULT_OPTIONS).1
        = ⟨(sanitizeBackgroundColor ro.backgroundColor DEFAULT_OPTIONS.backgroundColor).1,
           (sanitizeMaxScale ro.maxScale (5 : ℚ)).1,
           (sanitizeMinScale ro.minScale (1 : ℚ)).1,
           (sanitizeTransitionDuration ro.transitionDuration DEFAULT_OPTIONS.transitionDuration).1,
           (sanitizeZIndex ro.zIndex DEFAULT_OPTIONS.zIndex).1⟩ := by
      simp only [validateAndSanitizeOptions, DEFAULT_OPTIONS]
      rw [if_neg hcond]
    rw [hres]
    exact ⟨hmin01, hmin1, hmax1, hmax10, hlt, sub_ne_zero.mpr (ne_of_gt hmax1)⟩

end PinchZoomSpec
